import Mathlib

/-
Verification of the session-orchestration logic of the two scripts
`dg_cartesia_agent_e2e.py` (class `DemoRunner`) and
`test_multilingual_cartesia.py` (class `ScenarioRunner`).

The embedding is a shallow one: each Python callback or worker-loop body is
translated into an executable Lean function over an explicit session-state
record.  Bytes are modelled as `List Nat`, Python dicts parsed from JSON
textual frames as association lists of string fields, and the outcome of a
callback as `Except PyErr (state × effect list)` where the effect list
records console output, disk sinks, and thread starts.  External
nondeterminism (timestamps and random components of file names) is not
modelled beyond the fact that a sink with the buffered bytes is written.
-/

/-- Python exceptions that the embedded handlers can raise.  `attributeError`
corresponds to calling `.get` on a non-dict value produced by `json.loads`. -/
inductive PyErr
  | attributeError
deriving DecidableEq, Repr

/-- Result of `json.loads` on a textual WebSocket frame: the text is either
not valid JSON (`json.loads` raises), valid JSON that is not an object
(so `event.get` raises `AttributeError`), or a JSON object, modelled as an
association list of string-valued fields. -/
inductive TextParse
  | notJson
  | nonObject
  | obj (fields : List (String × String))
deriving DecidableEq, Repr

/-- An inbound WebSocket message as seen by `_on_message`: either raw bytes
(ignored there) or a textual frame. -/
inductive MsgIn
  | bytes (data : List Nat)
  | text (p : TextParse)
deriving DecidableEq, Repr

/-- Model of Python `event.get(key, "")` on a JSON object. -/
def objGet (fields : List (String × String)) (key : String) : String :=
  (fields.lookup key).getD ""

/-- A transcript entry: Python dict with role, optional label, and content. -/
structure Msg where
  role : String
  label : Option String
  content : String
deriving DecidableEq, Repr

/-- An audio sink written to disk: the segment number together with the raw
bytes flushed from the audio buffer (the file name also carries a timestamp
and, in the demo script, a random disambiguator, which are external inputs
and not modelled). -/
structure Sink where
  turn : Nat
  data : List Nat
deriving DecidableEq, Repr

/-- Observable side effects of a handler invocation: console output lines,
audio sinks written, and background threads started. -/
inductive Effect
  | printLine (s : String)
  | writeSink (k : Sink)
  | startKeepalive
  | startScriptedTurns
  | startInteractiveTurns
  | stopKeepalive
  | closeWs
deriving DecidableEq, Repr

/-- Effects produced by `_save_audio`: one `writeSink` when a sink was
written, nothing otherwise. -/
def sinkEffects : Option Sink → List Effect
  | none => []
  | some k => [Effect.writeSink k]

/-- Python `str.strip` whitespace predicate (ASCII whitespace, which is all
the inputs of these scripts use). -/
def isPySpace (c : Char) : Bool :=
  c = ' ' || c = '\t' || c = '\n' || c = '\r' || c = '\x0b' || c = '\x0c'

/-- Model of Python `str.strip()`. -/
def pyStrip (s : String) : String :=
  String.mk (((s.data.dropWhile isPySpace).reverse.dropWhile isPySpace).reverse)

/-- Model of Python `str.lower()` on the ASCII inputs used here. -/
def pyLower (s : String) : String :=
  String.mk (s.data.map Char.toLower)

/-- Model of Python `str.upper()` on the ASCII inputs used here. -/
def pyUpper (s : String) : String :=
  String.mk (s.data.map Char.toUpper)

/-- The opcode constant `websocket.ABNF.OPCODE_BINARY` (value 0x2). -/
def OPCODE_BINARY : Nat := 2

/-
Demo runner (`dg_cartesia_agent_e2e.py`, class `DemoRunner`).
-/

/-- Mutable session state of `DemoRunner.__init__`: audio buffer and segment
counter, transcript, completion / stop / handshake / input-ready flags, and
the recorded error strings. -/
structure DemoState where
  audio_buffer : List Nat
  audio_turn : Nat
  conversation : List Msg
  done : Bool
  keepalive_stop : Bool
  settings_applied : Bool
  ready_for_input : Bool
  errors : List String
deriving DecidableEq, Repr

/-- The state constructed by `DemoRunner.__init__`. -/
def demoInit : DemoState :=
  { audio_buffer := []
    audio_turn := 0
    conversation := []
    done := false
    keepalive_stop := false
    settings_applied := false
    ready_for_input := false
    errors := [] }

/-- Translation of `DemoRunner._save_audio`: an empty buffer returns at once;
otherwise the segment counter is incremented, the buffered bytes are written
to a sink, and the buffer is reset to empty. -/
def demoSaveAudio (s : DemoState) : DemoState × Option Sink :=
  if s.audio_buffer = [] then (s, none)
  else
    ({ s with audio_turn := s.audio_turn + 1, audio_buffer := [] },
     some ⟨s.audio_turn + 1, s.audio_buffer⟩)

/-- Translation of `DemoRunner._on_data`: binary frames with nonzero length
are appended to the audio buffer; everything else is ignored. -/
def demoOnData (s : DemoState) (data : List Nat) (data_type : Nat) : DemoState :=
  if data_type = OPCODE_BINARY ∧ data.length > 0 then
    { s with audio_buffer := s.audio_buffer ++ data }
  else s

/-- Translation of `DemoRunner._on_message`.  `turnsCfg` is
`self.scenario["turns"]` (`none` means interactive mode).  Binary messages
and unparsable text return immediately; a JSON non-object raises
`AttributeError` at `event.get`; otherwise the handler dispatches on the
`type` tag exactly as the `if`/`elif` chain does. -/
def demoOnMessage (turnsCfg : Option (List (String × String))) (s : DemoState)
    (m : MsgIn) : Except PyErr (DemoState × List Effect) :=
  match m with
  | .bytes _ => .ok (s, [])
  | .text .notJson => .ok (s, [])
  | .text .nonObject => .error .attributeError
  | .text (.obj fields) =>
    let etype := objGet fields "type"
    if etype = "SettingsApplied" then
      .ok ({ s with settings_applied := true },
        [Effect.printLine "  Connected and configured.\n", Effect.startKeepalive,
         if turnsCfg.isSome then Effect.startScriptedTurns
         else Effect.startInteractiveTurns])
    else if etype = "ConversationText" then
      let role := objGet fields "role"
      let content := objGet fields "content"
      .ok ({ s with conversation := s.conversation ++ [⟨role, none, content⟩] },
        if role = "assistant" then [Effect.printLine ("  AGENT: " ++ content)] else [])
    else if etype = "AgentAudioDone" then
      let r := demoSaveAudio s
      .ok (if turnsCfg.isSome then r.1 else { r.1 with ready_for_input := true },
        sinkEffects r.2)
    else if etype = "Error" then
      let code := objGet fields "code"
      let desc := objGet fields "description"
      if code ≠ "CLIENT_MESSAGE_TIMEOUT" then
        .ok ({ s with errors := s.errors ++ ["[" ++ code ++ "] " ++ desc] },
          [Effect.printLine ("\n  ERROR: " ++ desc)])
      else
        .ok (s, [])
    else
      .ok (s, [])

/-- Translation of `DemoRunner._on_close`: set the keepalive stop flag, flush
the audio buffer to a final sink, mark the session done, and release the
interactive input wait. -/
def demoOnClose (s : DemoState) : DemoState × Option Sink :=
  let s₁ := { s with keepalive_stop := true }
  let r := demoSaveAudio s₁
  ({ r.1 with done := true, ready_for_input := true }, r.2)

/-- Extracts the successful result of a handler call, `none` when it raised. -/
def okPart {α : Type} (e : Except PyErr (α × List Effect)) :
    Option (α × List Effect) :=
  match e with
  | .ok r => some r
  | .error _ => none

/-- The scripted-turn scenario 1 ("Field Technician") of the demo script:
its `(label, text)` turn list, verbatim from `SCENARIOS["1"]["turns"]`. -/
def demoSc1Turns : List (String × String) :=
  [("Spanish + English term", "Cierra el work order número 4523."),
   ("Spanish + English term",
    "El check engine light está encendido en el camión 78. ¿Qué hago?"),
   ("Pure Spanish", "¿Cuáles son los work orders pendientes para hoy?"),
   ("Heavily mixed",
    "Necesito hacer un update al dashboard con el status del delivery.")]

/-- Timed schedule of `DemoRunner._send_scripted_turns` in isolation: the
clock `t` advances by each `time.sleep(4 if i == 0 else 6)` and the sent
message text is emitted at the resulting instant.  (After the loop the code
sleeps 8, sets the keepalive stop flag, and closes the socket.) -/
def demoScriptedSched : List (String × String) → Nat → Nat → List (Nat × String)
  | [], _, _ => []
  | (_, text) :: rest, t, i =>
    let t' := t + (if i = 0 then 4 else 6)
    (t', text) :: demoScriptedSched rest t' (i + 1)

/-- The quit tokens accepted by `DemoRunner._send_interactive_turns`. -/
def quitTokens : List String := ["quit", "exit", "q"]

/-- Sequential model of `DemoRunner._send_interactive_turns` over the list of
lines the user types (the `done` flag is not set and the input-ready event is
signalled, i.e. the session stays open): each line is stripped; an empty or
quit line breaks the loop; otherwise the stripped text is sent (and appended
to the transcript with label "custom").  Running out of lines is `input()`
raising `EOFError`, which also breaks.  After the loop the keepalive stop
flag is set and the socket is closed. -/
def demoInteractiveRun : List String → List String × List Effect
  | [] => ([], [Effect.stopKeepalive, Effect.closeWs])
  | line :: rest =>
    let text := pyStrip line
    if text = "" ∨ quitTokens.contains (pyLower text) then
      ([], [Effect.stopKeepalive, Effect.closeWs])
    else
      let r := demoInteractiveRun rest
      (text :: r.1, r.2)

/-
Test harness (`test_multilingual_cartesia.py`, class `ScenarioRunner`).
-/

/-- A recorded error or warning: Python dict with code and description. -/
structure ErrRec where
  code : String
  description : String
deriving DecidableEq, Repr

/-- An entry of `results["audio_files"]`: segment number and byte count (the
file-name component carries an external timestamp and is not modelled). -/
structure AudioRec where
  turn : Nat
  size_bytes : Nat
deriving DecidableEq, Repr

/-- Mutable session state of `ScenarioRunner.__init__`: the `results` record
fields that the callbacks mutate, the audio buffer and segment counter, and
the completion / stop flags.  The constant configuration echoes in `results`
(scenario id, name, description, config) are immutable and omitted. -/
structure ScenState where
  settings_applied : Bool
  errors : List ErrRec
  warnings : List ErrRec
  conversation : List Msg
  audio_files : List AudioRec
  audio_buffer : List Nat
  audio_turn : Nat
  done_event : Bool
  keepalive_stop : Bool
deriving DecidableEq, Repr

/-- The state constructed by `ScenarioRunner.__init__`. -/
def scenInit : ScenState :=
  { settings_applied := false
    errors := []
    warnings := []
    conversation := []
    audio_files := []
    audio_buffer := []
    audio_turn := 0
    done_event := false
    keepalive_stop := false }

/-- Translation of `ScenarioRunner._save_audio`: an empty buffer returns at
once; otherwise the segment counter is incremented, a sink is written, its
record is appended to `results["audio_files"]`, and the buffer is reset. -/
def scenSaveAudio (s : ScenState) : ScenState × Option Sink :=
  if s.audio_buffer = [] then (s, none)
  else
    ({ s with
        audio_turn := s.audio_turn + 1
        audio_buffer := []
        audio_files := s.audio_files ++ [⟨s.audio_turn + 1, s.audio_buffer.length⟩] },
     some ⟨s.audio_turn + 1, s.audio_buffer⟩)

/-- Translation of `ScenarioRunner._on_data` (identical to the demo one). -/
def scenOnData (s : ScenState) (data : List Nat) (data_type : Nat) : ScenState :=
  if data_type = OPCODE_BINARY ∧ data.length > 0 then
    { s with audio_buffer := s.audio_buffer ++ data }
  else s

/-- Translation of `ScenarioRunner._on_message`: binary messages and
unparsable text return immediately; a JSON non-object raises at
`event.get`; otherwise dispatch on the `type` tag.  Errors are always
appended to `results["errors"]`, displayed unless the code is
`CLIENT_MESSAGE_TIMEOUT`, and the two fatal codes additionally set the
keepalive stop flag and the completion event.  Warnings are appended to
`results["warnings"]` and displayed. -/
def scenOnMessage (s : ScenState) (m : MsgIn) :
    Except PyErr (ScenState × List Effect) :=
  match m with
  | .bytes _ => .ok (s, [])
  | .text .notJson => .ok (s, [])
  | .text .nonObject => .error .attributeError
  | .text (.obj fields) =>
    let etype := objGet fields "type"
    if etype = "SettingsApplied" then
      .ok ({ s with settings_applied := true },
        [Effect.printLine "    [OK] SettingsApplied — config accepted!",
         Effect.startKeepalive, Effect.startScriptedTurns])
    else if etype = "ConversationText" then
      let role := objGet fields "role"
      let content := objGet fields "content"
      let tag := if role = "assistant" then "AGENT" else pyUpper role
      .ok ({ s with conversation := s.conversation ++ [⟨role, none, content⟩] },
        [Effect.printLine ("    [" ++ tag ++ "]: " ++ content)])
    else if etype = "AgentAudioDone" then
      let r := scenSaveAudio s
      .ok (r.1, sinkEffects r.2)
    else if etype = "Error" then
      let desc := objGet fields "description"
      let code := objGet fields "code"
      let s₁ := { s with errors := s.errors ++ [⟨code, desc⟩] }
      let effs := if code ≠ "CLIENT_MESSAGE_TIMEOUT" then
          [Effect.printLine ("    [ERROR] " ++ code ++ ": " ++ desc)]
        else []
      if code = "INVALID_SETTINGS" ∨ code = "UNPARSABLE_CLIENT_MESSAGE" then
        .ok ({ s₁ with keepalive_stop := true, done_event := true }, effs)
      else
        .ok (s₁, effs)
    else if etype = "Warning" then
      let desc := objGet fields "description"
      let code := objGet fields "code"
      .ok ({ s with warnings := s.warnings ++ [⟨code, desc⟩] },
        [Effect.printLine ("    [WARN] " ++ code ++ ": " ++ desc)])
    else
      .ok (s, [])

/-- Translation of `ScenarioRunner._on_close`: set the keepalive stop flag,
flush the remaining audio to a final sink, and set the completion event. -/
def scenOnClose (s : ScenState) : ScenState × Option Sink :=
  let s₁ := { s with keepalive_stop := true }
  let r := scenSaveAudio s₁
  ({ r.1 with done_event := true }, r.2)

/-- Timed schedule of `ScenarioRunner._send_turns` in isolation: the clock
advances by each `time.sleep(3 if i == 0 else 6)` and the sent message text
is emitted at the resulting instant. -/
def scenScriptedSched : List (String × String) → Nat → Nat → List (Nat × String)
  | [], _, _ => []
  | (_, text) :: rest, t, i =>
    let t' := t + (if i = 0 then 3 else 6)
    (t', text) :: scenScriptedSched rest t' (i + 1)

/-- Event types handled by the `if`/`elif` chain of `DemoRunner._on_message`. -/
def demoRecognized : List String :=
  ["SettingsApplied", "ConversationText", "AgentAudioDone", "Error"]

/-- Event types handled by the `if`/`elif` chain of
`ScenarioRunner._on_message`. -/
def scenRecognized : List String :=
  ["SettingsApplied", "ConversationText", "AgentAudioDone", "Error", "Warning"]

/-
Interleaved model of one demo-runner session in scripted mode: the
message-receiving activity (the WebSocket callback thread running
`_on_message`) and the scripted-turn activity (`_send_scripted_turns`)
run concurrently and interleave at the granularity of one callback
invocation / one loop iteration.
-/

/-- Whole-system state: the shared `DemoRunner` state, which background
threads were started, the sender's loop position, whether the sender thread
died of an exception, and whether the client closed the socket. -/
structure DemoSys where
  st : DemoState
  kaStarted : Bool
  turnsStarted : Bool
  nextTurn : Nat
  senderDead : Bool
  wsClosed : Bool
deriving DecidableEq, Repr

/-- The system state right after `DemoRunner.run` opened the connection. -/
def demoSysInit : DemoSys :=
  { st := demoInit
    kaStarted := false
    turnsStarted := false
    nextTurn := 0
    senderDead := false
    wsClosed := false }

/-- Scheduler choices: deliver one inbound textual frame to `_on_message`,
run one iteration of the `for` loop of `_send_scripted_turns`, or run its
epilogue (final sleep, stop the keepalive loop, close the socket). -/
inductive DemoAct
  | recv (p : TextParse)
  | turnStep
  | turnEpilogue
deriving DecidableEq, Repr

/-- Observable labels of a system step: a received error event with its code,
or a transmitted `InjectUserMessage` with its content. -/
inductive Lab
  | gotError (code : String)
  | sentUser (content : String)
deriving DecidableEq, Repr

/-- Labels produced by delivering a textual frame: receiving an `Error` event
is observable with its code. -/
def labsOfRecv : TextParse → List Lab
  | .obj fields =>
    if objGet fields "type" = "Error" then [Lab.gotError (objGet fields "code")]
    else []
  | _ => []

/-- One interleaved step of the session, for the scripted turn list `tc`.
`recv` applies `demoOnMessage` (an exception propagates to the library,
whose `on_error` callback ignores it); `SettingsApplied` marks the two
worker threads started.  `turnStep` executes one iteration of the sender's
`for` loop: sleep, then `ws.send` — which raises and kills the thread if the
socket is already closed — then the transcript append.  `turnEpilogue` is
the code after the loop: it sets the keepalive stop flag and closes the
socket. -/
def stepDemo (tc : List (String × String)) (sys : DemoSys) :
    DemoAct → Option (DemoSys × List Lab)
  | .recv p =>
    if sys.wsClosed then none
    else
      match demoOnMessage (some tc) sys.st (.text p) with
      | .error _ => some (sys, labsOfRecv p)
      | .ok (st', effs) =>
        some ({ sys with
                st := st'
                kaStarted := sys.kaStarted || effs.contains Effect.startKeepalive
                turnsStarted :=
                  sys.turnsStarted || effs.contains Effect.startScriptedTurns },
              labsOfRecv p)
  | .turnStep =>
    if sys.turnsStarted = true ∧ sys.senderDead = false then
      match tc.drop sys.nextTurn with
      | [] => none
      | (label, text) :: _ =>
        if sys.wsClosed then some ({ sys with senderDead := true }, [])
        else
          some ({ sys with
                  st := { sys.st with conversation :=
                    sys.st.conversation ++ [⟨"user", some label, text⟩] },
                  nextTurn := sys.nextTurn + 1 },
                [Lab.sentUser text])
    else none
  | .turnEpilogue =>
    if sys.turnsStarted = true ∧ sys.senderDead = false ∧
        tc.drop sys.nextTurn = [] then
      some ({ sys with
              st := { sys.st with keepalive_stop := true }
              wsClosed := true }, [])
    else none

/-- Runs a list of scheduler choices from a system state, collecting the
emitted labels in order; `none` if some choice is not enabled. -/
def runDemo (tc : List (String × String)) :
    DemoSys → List DemoAct → Option (DemoSys × List Lab)
  | sys, [] => some (sys, [])
  | sys, a :: rest =>
    match stepDemo tc sys a with
    | none => none
    | some (sys', labs) =>
      (runDemo tc sys' rest).map (fun r => (r.1, labs ++ r.2))

/-- The fatal error codes named by the specification. -/
def fatalCodes : List String := ["INVALID_SETTINGS", "UNPARSABLE_CLIENT_MESSAGE"]

/-- Checks that no label is a transmitted user turn. -/
def noSentUser (l : List Lab) : Bool :=
  l.all (fun x => match x with | Lab.sentUser _ => false | _ => true)

/-- The property of claim C1 on an observed label sequence: after any
received fatal error code, no user-turn message is ever transmitted. -/
def afterFatalNoSend : List Lab → Bool
  | [] => true
  | Lab.gotError c :: rest =>
    if fatalCodes.contains c then noSentUser rest && afterFatalNoSend rest
    else afterFatalNoSend rest
  | _ :: rest => afterFatalNoSend rest

/-- The `SettingsApplied` frame as parsed by the handlers. -/
def settingsFrame : TextParse := .obj [("type", "SettingsApplied")]

/-- An `Error` frame with the given code and description, as parsed. -/
def errFields (code desc : String) : List (String × String) :=
  [("type", "Error"), ("code", code), ("description", desc)]

/-- An `Error` frame wrapped as a textual message. -/
def errFrame (code desc : String) : MsgIn := .text (.obj (errFields code desc))

/-- A `Warning` frame with the given code and description, as parsed. -/
def warnFrame (code desc : String) : MsgIn :=
  .text (.obj [("type", "Warning"), ("code", code), ("description", desc)])

/-
Model of `_keepalive_loop` (identical in `DemoRunner` and `ScenarioRunner`):

    while not stop.is_set():
        stop.wait(KEEPALIVE_INTERVAL)
        if stop.is_set():
            break
        try:
            ws.send(KeepAlive)
        except Exception:
            break

The loop is modelled at statement granularity with an explicit clock
(`KEEPALIVE_INTERVAL = 7` time units): other threads may set the stop flag
(`threading.Event.set`) at any point between the loop's statements.
`Event.wait(7)` either runs for the full 7 units (flag unset throughout) or
returns early once the flag is set.
-/

/-- Program counter of the keepalive thread: at the `while` condition, inside
`stop.wait(7)`, at the `if stop.is_set()` check, at the `ws.send`, or done. -/
inductive KPc
  | loopCheck
  | waiting
  | postWait
  | sending
  | exited
deriving DecidableEq, Repr

/-- State of the keepalive loop together with the shared stop flag and a
global clock. -/
structure KState where
  pc : KPc
  stop : Bool
  clock : Nat
deriving DecidableEq, Repr

/-- The keepalive thread starts at the `while` condition with the flag unset. -/
def kaInit : KState := { pc := .loopCheck, stop := false, clock := 0 }

/-- Scheduler choices for the keepalive loop: another thread sets the stop
flag; the loop evaluates its `while` condition; the `wait(7)` elapses in full
(flag unset) or returns early after `d ≤ 7` units because the flag was set;
the loop evaluates the `if` check; the `ws.send` succeeds, or raises (socket
closed) so the `except` branch breaks. -/
inductive KAct
  | setStop
  | doLoopCheck
  | waitFull
  | waitEarly (d : Nat)
  | doPostWait
  | sendOk
  | sendFail
deriving DecidableEq, Repr

/-- Observable labels: the stop flag being set, and a keepalive message sent
at a clock instant. -/
inductive KLab
  | stopped
  | sent (t : Nat)
deriving DecidableEq, Repr

/-- One statement-granularity step of the keepalive loop model. -/
def kaStep (s : KState) : KAct → Option (KState × List KLab)
  | .setStop => some ({ s with stop := true }, [KLab.stopped])
  | .doLoopCheck =>
    if s.pc = KPc.loopCheck then
      some ({ s with pc := if s.stop then KPc.exited else KPc.waiting }, [])
    else none
  | .waitFull =>
    if s.pc = KPc.waiting ∧ s.stop = false then
      some ({ s with pc := KPc.postWait, clock := s.clock + 7 }, [])
    else none
  | .waitEarly d =>
    if s.pc = KPc.waiting ∧ s.stop = true ∧ d ≤ 7 then
      some ({ s with pc := KPc.postWait, clock := s.clock + d }, [])
    else none
  | .doPostWait =>
    if s.pc = KPc.postWait then
      some ({ s with pc := if s.stop then KPc.exited else KPc.sending }, [])
    else none
  | .sendOk =>
    if s.pc = KPc.sending then
      some ({ s with pc := KPc.loopCheck }, [KLab.sent s.clock])
    else none
  | .sendFail =>
    if s.pc = KPc.sending then some ({ s with pc := KPc.exited }, []) else none

/-- Runs a list of scheduler choices of the keepalive model, collecting the
emitted labels; `none` if some choice is not enabled. -/
def kaRun : KState → List KAct → Option (KState × List KLab)
  | s, [] => some (s, [])
  | s, a :: rest =>
    match kaStep s a with
    | none => none
    | some (s', labs) => (kaRun s' rest).map (fun r => (r.1, labs ++ r.2))

/-- The instants at which keepalive messages were sent. -/
def sentTimes (l : List KLab) : List Nat :=
  l.filterMap (fun x => match x with | KLab.sent t => some t | _ => none)

/-- Number of keepalive messages in a label list. -/
def countSent (l : List KLab) : Nat := (sentTimes l).length

/-- Number of keepalive messages sent strictly after the first instant the
stop flag was set. -/
def countSentAfterStopped : List KLab → Nat
  | [] => 0
  | KLab.stopped :: rest => countSent rest
  | KLab.sent _ :: rest => countSentAfterStopped rest

/-- Checks that each instant is at least 7 units after the previous one
(`p` is the instant of the send before the list, if any). -/
def gapsFrom : Option Nat → List Nat → Bool
  | _, [] => true
  | none, x :: xs => gapsFrom (some x) xs
  | some p, x :: xs => (p + 7 ≤ x) && gapsFrom (some x) xs

/-- Checks that consecutive send instants are at least 7 units apart. -/
def gapsOK (xs : List Nat) : Bool := gapsFrom none xs

/-- How many further keepalive messages the loop can still emit once the stop
flag is set: one if the thread is already past its check and about to send,
none otherwise. -/
def sendBudget (s : KState) : Nat := if s.pc = KPc.sending then 1 else 0

/-- Invariant of the keepalive model used to prove the spacing of sends:
the clock never precedes the last send, and whenever the thread is about to
send (or has completed a full wait that will let it send), at least a full
interval has elapsed since the last send. -/
def kaInv (s : KState) (last? : Option Nat) : Prop :=
  (∀ t, last? = some t → t ≤ s.clock) ∧
  (s.pc = KPc.sending → ∀ t, last? = some t → t + 7 ≤ s.clock) ∧
  (s.pc = KPc.postWait → s.stop = false → ∀ t, last? = some t → t + 7 ≤ s.clock)

/-
Helper lemmas about the handler branches.
-/

theorem demoOnMessage_err (tc : Option (List (String × String))) (s : DemoState)
    (code desc : String) :
    demoOnMessage tc s (errFrame code desc) =
      .ok (if code = "CLIENT_MESSAGE_TIMEOUT" then s
           else { s with errors := s.errors ++ ["[" ++ code ++ "] " ++ desc] },
           if code = "CLIENT_MESSAGE_TIMEOUT" then []
           else [Effect.printLine ("\n  ERROR: " ++ desc)]) := by
  by_cases hc : code = "CLIENT_MESSAGE_TIMEOUT"
  · subst hc; rfl
  · simp only [demoOnMessage, errFrame, errFields, objGet, List.lookup]
    simp [hc]

theorem scenOnMessage_err (s : ScenState) (code desc : String) :
    scenOnMessage s (errFrame code desc) =
      .ok ((if code = "INVALID_SETTINGS" ∨ code = "UNPARSABLE_CLIENT_MESSAGE" then
              { s with errors := s.errors ++ [⟨code, desc⟩],
                       keepalive_stop := true, done_event := true }
            else { s with errors := s.errors ++ [⟨code, desc⟩] }),
           if code = "CLIENT_MESSAGE_TIMEOUT" then []
           else [Effect.printLine ("    [ERROR] " ++ code ++ ": " ++ desc)]) := by
  by_cases hf : code = "INVALID_SETTINGS" ∨ code = "UNPARSABLE_CLIENT_MESSAGE" <;>
    by_cases hc : code = "CLIENT_MESSAGE_TIMEOUT" <;>
    simp only [scenOnMessage, errFrame, errFields, objGet, List.lookup] <;>
    simp [hf, hc]

/-- C5.  For every session, the audio buffer is empty immediately after a
flush that wrote a sink, grows exactly by the length of each received
non-empty binary chunk between flushes, and flushing while the buffer is
empty is a no-op that writes no sink and leaves the turn counter (and all
other state) unchanged — for both the demo runner and the test harness. -/
theorem C5_audio_buffer_invariants :
    ∀ (s s' : DemoState) (u u' : ScenState) (k : Sink) (data : List Nat),
      (demoSaveAudio s = (s', some k) → s'.audio_buffer = []) ∧
      (s.audio_buffer = [] → demoSaveAudio s = (s, none)) ∧
      (data ≠ [] →
        (demoOnData s data OPCODE_BINARY).audio_buffer = s.audio_buffer ++ data ∧
        ((demoOnData s data OPCODE_BINARY).audio_buffer).length
          = s.audio_buffer.length + data.length) ∧
      (scenSaveAudio u = (u', some k) → u'.audio_buffer = []) ∧
      (u.audio_buffer = [] → scenSaveAudio u = (u, none)) ∧
      (data ≠ [] →
        (scenOnData u data OPCODE_BINARY).audio_buffer = u.audio_buffer ++ data ∧
        ((scenOnData u data OPCODE_BINARY).audio_buffer).length
          = u.audio_buffer.length + data.length) := by
  intro s s' u u' k data
  refine ⟨?_, ?_, ?_, ?_, ?_, ?_⟩
  · intro h
    by_cases hb : s.audio_buffer = [] <;> simp [demoSaveAudio, hb] at h
    obtain ⟨h1, -⟩ := h
    simp [← h1]
  · intro hb; simp [demoSaveAudio, hb]
  · intro hd
    have hlen : data.length > 0 := List.length_pos.mpr hd
    simp [demoOnData, OPCODE_BINARY, hlen]
  · intro h
    by_cases hb : u.audio_buffer = [] <;> simp [scenSaveAudio, hb] at h
    obtain ⟨h1, -⟩ := h
    simp [← h1]
  · intro hb; simp [scenSaveAudio, hb]
  · intro hd
    have hlen : data.length > 0 := List.length_pos.mpr hd
    simp [scenOnData, OPCODE_BINARY, hlen]

/-- Closed instance of C5: a two-byte chunk arriving on a fresh demo session
grows the buffer to those two bytes; flushing then writes a sink and empties
the buffer; flushing the already-empty initial harness state is a no-op. -/
theorem C5_witness :
    ((demoOnData demoInit [10, 20] OPCODE_BINARY).audio_buffer
        = demoInit.audio_buffer ++ [10, 20] ∧
      ((demoOnData demoInit [10, 20] OPCODE_BINARY).audio_buffer).length
        = demoInit.audio_buffer.length + 2) ∧
    (demoSaveAudio (demoOnData demoInit [10, 20] OPCODE_BINARY)).1.audio_buffer
        = [] ∧
    scenSaveAudio scenInit = (scenInit, none) := by
  refine ⟨?_, ?_, ?_⟩
  · exact (C5_audio_buffer_invariants demoInit demoInit scenInit scenInit
      ⟨1, [10, 20]⟩ [10, 20]).2.2.1 (by decide)
  · exact (C5_audio_buffer_invariants
      (demoOnData demoInit [10, 20] OPCODE_BINARY)
      (demoSaveAudio (demoOnData demoInit [10, 20] OPCODE_BINARY)).1
      scenInit scenInit ⟨1, [10, 20]⟩ [10, 20]).1 (by decide)
  · exact (C5_audio_buffer_invariants demoInit demoInit scenInit scenInit
      ⟨1, [10, 20]⟩ [10, 20]).2.2.2.2.1 (by decide)

/-- C6.  Closing a session is idempotent, in both runners: the first close
marks the session finished; a second invocation of the close path writes no
sink (so the pair writes at most one) and leaves the whole session state
unchanged. -/
theorem C6_close_idempotent :
    ∀ (s : DemoState) (u : ScenState),
      (demoOnClose s).1.done = true ∧
      demoOnClose (demoOnClose s).1 = ((demoOnClose s).1, none) ∧
      (scenOnClose u).1.done_event = true ∧
      scenOnClose (scenOnClose u).1 = ((scenOnClose u).1, none) := by
  intro s u
  refine ⟨?_, ?_, ?_, ?_⟩
  · by_cases hb : s.audio_buffer = [] <;> simp [demoOnClose, demoSaveAudio, hb]
  · by_cases hb : s.audio_buffer = [] <;> simp [demoOnClose, demoSaveAudio, hb]
  · by_cases hb : u.audio_buffer = [] <;> simp [scenOnClose, scenSaveAudio, hb]
  · by_cases hb : u.audio_buffer = [] <;> simp [scenOnClose, scenSaveAudio, hb]

/-- C8, counterexample to the claim as stated: the demo runner's handler has
no `Warning` branch, so a received warning event is neither appended to any
warning record nor emitted for display — the handler leaves the state
unchanged and produces no effect at all. -/
theorem C8_counterexample :
    okPart (demoOnMessage (some demoSc1Turns) demoInit
        (warnFrame "WARN_X" "model responded slowly"))
      = some (demoInit, []) := rfl

/-- C8, amended.  In the test harness every received warning event is
appended to the warning record and emitted for display, and it changes
nothing else (in particular it never sets the completion or stop flag, so a
warning never terminates the session); the demo runner ignores warning
events entirely, leaving its state unchanged and emitting nothing (so there,
too, a warning never terminates the session). -/
theorem C8_warnings_recorded_nonfatal :
    ∀ (tc : Option (List (String × String))) (d : DemoState) (s : ScenState)
      (code desc : String),
      scenOnMessage s (warnFrame code desc) =
        .ok ({ s with warnings := s.warnings ++ [⟨code, desc⟩] },
             [Effect.printLine ("    [WARN] " ++ code ++ ": " ++ desc)]) ∧
      demoOnMessage tc d (warnFrame code desc) = .ok (d, []) := by
  intro tc d s code desc
  exact ⟨rfl, rfl⟩

/-- C2, counterexample to the claim as stated: the demo runner has no fatal
handling — after receiving an error event with the fatal code
`INVALID_SETTINGS`, its completion flag and keepalive stop flag are both
still unset, so the session is not ended and the liveness loop not stopped. -/
theorem C2_counterexample :
    (okPart (demoOnMessage (some demoSc1Turns) demoInit
        (errFrame "INVALID_SETTINGS" "configuration rejected"))).map
      (fun p => (p.1.done, p.1.keepalive_stop)) = some (false, false) := rfl

/-- C2, amended.  In the test harness, receipt of an error event whose code
is `INVALID_SETTINGS` or `UNPARSABLE_CLIENT_MESSAGE` sets the keepalive stop
flag (stopping the liveness loop) and the completion event (ending the
session); the demo runner only records and displays such errors. -/
theorem C2_fatal_codes_end_harness_session :
    ∀ (s : ScenState) (code desc : String) (s' : ScenState) (effs : List Effect),
      (code = "INVALID_SETTINGS" ∨ code = "UNPARSABLE_CLIENT_MESSAGE") →
      scenOnMessage s (errFrame code desc) = .ok (s', effs) →
      s'.keepalive_stop = true ∧ s'.done_event = true := by
  intro s code desc s' effs hf h
  rw [scenOnMessage_err, if_pos hf] at h
  obtain ⟨h1, -⟩ : _ ∧ _ := by simpa using h
  simp [← h1]

/-- Closed instance of C2's amended theorem: on a fresh harness session an
`INVALID_SETTINGS` error sets both the stop flag and the completion event. -/
theorem C2_witness :
    ({ scenInit with
        errors := scenInit.errors
          ++ [⟨"INVALID_SETTINGS", "configuration rejected"⟩]
        keepalive_stop := true
        done_event := true } : ScenState).keepalive_stop = true ∧
    ({ scenInit with
        errors := scenInit.errors
          ++ [⟨"INVALID_SETTINGS", "configuration rejected"⟩]
        keepalive_stop := true
        done_event := true } : ScenState).done_event = true :=
  C2_fatal_codes_end_harness_session scenInit "INVALID_SETTINGS"
    "configuration rejected" _
    [Effect.printLine "    [ERROR] INVALID_SETTINGS: configuration rejected"]
    (Or.inl rfl) (by rw [scenOnMessage_err]; rfl)

/-- C3, counterexample to the claim as stated: in the demo runner the append
to the error list sits inside the display guard, so an error event with the
client-idle-timeout code `CLIENT_MESSAGE_TIMEOUT` is dropped from the
recorded list entirely — the handler returns the state unchanged (the error
list still empty) and emits nothing. -/
theorem C3_counterexample :
    okPart (demoOnMessage (some demoSc1Turns) demoInit
        (errFrame "CLIENT_MESSAGE_TIMEOUT" "client idle timeout"))
      = some (demoInit, []) ∧ demoInit.errors = [] := ⟨rfl, rfl⟩

/-- C3, amended.  In the test harness every received error event, the
client-idle-timeout code included, is appended to the error list, and
exactly the client-idle-timeout code is excluded from display.  In the demo
runner an error with that code is neither displayed nor recorded (it is
dropped from the list), while every other error is appended and displayed. -/
theorem C3_errors_recorded_timeout_suppressed :
    ∀ (tc : Option (List (String × String))) (d : DemoState) (s : ScenState)
      (code desc : String),
      (∀ (s' : ScenState) (effs : List Effect),
        scenOnMessage s (errFrame code desc) = .ok (s', effs) →
        s'.errors = s.errors ++ [⟨code, desc⟩] ∧
        (Effect.printLine ("    [ERROR] " ++ code ++ ": " ++ desc) ∈ effs ↔
          code ≠ "CLIENT_MESSAGE_TIMEOUT")) ∧
      (code = "CLIENT_MESSAGE_TIMEOUT" →
        demoOnMessage tc d (errFrame code desc) = .ok (d, [])) ∧
      (code ≠ "CLIENT_MESSAGE_TIMEOUT" →
        demoOnMessage tc d (errFrame code desc) =
          .ok ({ d with errors := d.errors ++ ["[" ++ code ++ "] " ++ desc] },
               [Effect.printLine ("\n  ERROR: " ++ desc)])) := by
  intro tc d s code desc
  refine ⟨?_, ?_, ?_⟩
  · intro s' effs h
    rw [scenOnMessage_err] at h
    obtain ⟨h1, h2⟩ : _ ∧ _ := by simpa using h
    constructor
    · by_cases hf : code = "INVALID_SETTINGS" ∨ code = "UNPARSABLE_CLIENT_MESSAGE" <;>
        simp [hf] at h1 <;> simp [← h1]
    · by_cases hc : code = "CLIENT_MESSAGE_TIMEOUT"
      · simp [hc] at h2; simp [h2, hc]
      · simp [hc] at h2; simp [← h2, hc]
  · intro hc; rw [demoOnMessage_err]; simp [hc]
  · intro hc; rw [demoOnMessage_err]; simp [hc]

/-- Closed instance of C3's amended theorem: a fresh harness session records
a client-idle-timeout error in its error list without displaying it, and the
demo runner records and displays an ordinary error. -/
theorem C3_witness :
    (({ scenInit with
          errors := scenInit.errors
            ++ [⟨"CLIENT_MESSAGE_TIMEOUT", "client idle timeout"⟩] } :
        ScenState).errors
      = scenInit.errors ++ [⟨"CLIENT_MESSAGE_TIMEOUT", "client idle timeout"⟩] ∧
      (Effect.printLine
          ("    [ERROR] " ++ "CLIENT_MESSAGE_TIMEOUT" ++ ": "
            ++ "client idle timeout") ∈ ([] : List Effect) ↔
        "CLIENT_MESSAGE_TIMEOUT" ≠ "CLIENT_MESSAGE_TIMEOUT")) ∧
    demoOnMessage (some demoSc1Turns) demoInit
        (errFrame "TTS_FAILED" "synthesis failed") =
      .ok ({ demoInit with
              errors := demoInit.errors ++ ["[" ++ "TTS_FAILED" ++ "] "
                ++ "synthesis failed"] },
           [Effect.printLine ("\n  ERROR: " ++ "synthesis failed")]) := by
  constructor
  · exact (C3_errors_recorded_timeout_suppressed (some demoSc1Turns) demoInit
      scenInit "CLIENT_MESSAGE_TIMEOUT" "client idle timeout").1 _ _
      (by rw [scenOnMessage_err]; rfl)
  · exact (C3_errors_recorded_timeout_suppressed (some demoSc1Turns) demoInit
      scenInit "TTS_FAILED" "synthesis failed").2.2 (by decide)

/-- C10, counterexample to the claim as stated: a textual frame that is valid
JSON but not a JSON object (for example the text `[]` or `null`) carries no
recognized type tag, yet the handler does not return without raising — the
`event.get("type", "")` call raises `AttributeError` (the demo runner shown;
the harness handler behaves identically). -/
theorem C10_counterexample :
    demoOnMessage (some demoSc1Turns) demoInit (MsgIn.text TextParse.nonObject)
      = .error PyErr.attributeError := rfl

/-- C10, amended.  For a textual frame that is not valid JSON, and for one
that parses to a JSON *object* whose type tag is not among the recognized
event types, both handlers return without raising and leave the session
state unchanged, emitting nothing; a frame that parses to valid non-object
JSON instead raises `AttributeError` inside the handler (the surrounding
WebSocket library catches it, and the state is likewise left unchanged). -/
theorem C10_unrecognized_frames_inert :
    ∀ (tc : Option (List (String × String))) (d : DemoState) (s : ScenState)
      (fields : List (String × String)),
      demoOnMessage tc d (MsgIn.text TextParse.notJson) = .ok (d, []) ∧
      scenOnMessage s (MsgIn.text TextParse.notJson) = .ok (s, []) ∧
      demoOnMessage tc d (MsgIn.text TextParse.nonObject)
        = .error PyErr.attributeError ∧
      scenOnMessage s (MsgIn.text TextParse.nonObject)
        = .error PyErr.attributeError ∧
      (demoRecognized.contains (objGet fields "type") = false →
        demoOnMessage tc d (MsgIn.text (TextParse.obj fields)) = .ok (d, [])) ∧
      (scenRecognized.contains (objGet fields "type") = false →
        scenOnMessage s (MsgIn.text (TextParse.obj fields)) = .ok (s, [])) := by
  intro tc d s fields
  refine ⟨rfl, rfl, rfl, rfl, ?_, ?_⟩
  · intro h
    simp [demoRecognized, List.contains, List.elem_eq_mem, decide_eq_false_iff_not] at h
    push_neg at h
    obtain ⟨h1, h2, h3, h4⟩ := h
    simp [demoOnMessage, h1, h2, h3, h4]
  · intro h
    simp [scenRecognized, List.contains, List.elem_eq_mem, decide_eq_false_iff_not] at h
    push_neg at h
    obtain ⟨h1, h2, h3, h4, h5⟩ := h
    simp [scenOnMessage, h1, h2, h3, h4, h5]

/-- Closed instance of C10's amended theorem: a `UserStartedSpeaking` event
(a real event type these scripts do not handle) leaves both sessions
unchanged with no output, and an unparsable frame is likewise inert. -/
theorem C10_witness :
    demoOnMessage (some demoSc1Turns) demoInit
        (MsgIn.text (TextParse.obj [("type", "UserStartedSpeaking")]))
      = .ok (demoInit, []) ∧
    scenOnMessage scenInit
        (MsgIn.text (TextParse.obj [("type", "UserStartedSpeaking")]))
      = .ok (scenInit, []) ∧
    demoOnMessage (some demoSc1Turns) demoInit (MsgIn.text TextParse.notJson)
      = .ok (demoInit, []) := by
  have h := C10_unrecognized_frames_inert (some demoSc1Turns) demoInit scenInit
    [("type", "UserStartedSpeaking")]
  exact ⟨h.2.2.2.2.1 (by decide), h.2.2.2.2.2 (by decide), h.1⟩

/-- C9.  In the interactive mode of the demo runner, an input line that is
empty after trimming whitespace terminates turn delivery exactly as the quit
tokens do: no user-turn message is transmitted for that line (or ever
after), and the loop proceeds to the close path (stop the keepalive loop,
close the socket) — the run is identical to one where the line is `quit`. -/
theorem C9_blank_line_is_quit :
    ∀ (line : String), pyStrip line = "" →
      (∀ (post : List String),
        demoInteractiveRun (line :: post)
          = ([], [Effect.stopKeepalive, Effect.closeWs])) ∧
      (∀ (pre post : List String),
        demoInteractiveRun (pre ++ line :: post)
          = demoInteractiveRun (pre ++ "quit" :: post)) := by
  intro line hline
  have hquit : pyLower (pyStrip "quit") ∈ quitTokens := by decide
  constructor
  · intro post
    simp [demoInteractiveRun, hline]
  · intro pre post
    induction pre with
    | nil =>
      simp only [List.nil_append]
      rw [show demoInteractiveRun (line :: post)
            = ([], [Effect.stopKeepalive, Effect.closeWs]) from by
          simp [demoInteractiveRun, hline]]
      simp [demoInteractiveRun, hquit]
    | cons p pre ih =>
      by_cases hcp : pyStrip p = "" ∨ pyLower (pyStrip p) ∈ quitTokens
      · simp [demoInteractiveRun, hcp]
      · simp [demoInteractiveRun, hcp, ih]

/-- Closed instance of C9: a whitespace-only line terminates the interactive
loop with no message sent, and a run containing a whitespace-only line is
identical to the same run with `quit` in its place. -/
theorem C9_witness :
    demoInteractiveRun ["   ", "hello there"]
      = ([], [Effect.stopKeepalive, Effect.closeWs]) ∧
    demoInteractiveRun (["send this message"] ++ "  " :: ["a later line"])
      = demoInteractiveRun (["send this message"] ++ "quit" :: ["a later line"]) := by
  have h := C9_blank_line_is_quit "   " (by decide)
  have h2 := C9_blank_line_is_quit "  " (by decide)
  exact ⟨h.1 ["hello there"], h2.2 ["send this message"] ["a later line"]⟩

/-
Helper lemmas for the scripted-turn schedules.
-/

theorem demoSched_texts (turns : List (String × String)) :
    ∀ (t i : Nat), (demoScriptedSched turns t i).map Prod.snd
      = turns.map Prod.snd := by
  induction turns with
  | nil => intro t i; rfl
  | cons a rest ih =>
    intro t i
    cases a with
    | mk label text => simp [demoScriptedSched, ih]

theorem scenSched_texts (turns : List (String × String)) :
    ∀ (t i : Nat), (scenScriptedSched turns t i).map Prod.snd
      = turns.map Prod.snd := by
  induction turns with
  | nil => intro t i; rfl
  | cons a rest ih =>
    intro t i
    cases a with
    | mk label text => simp [scenScriptedSched, ih]

theorem demoSched_time_pos (turns : List (String × String)) :
    ∀ (t i j : Nat), i ≠ 0 → j < turns.length →
      ((demoScriptedSched turns t i).getD j (0, "")).1 = t + 6 * (j + 1) := by
  induction turns with
  | nil => intro t i j _ hj; simp at hj
  | cons a rest ih =>
    intro t i j hi hj
    cases a with
    | mk label text =>
      cases j with
      | zero => simp [demoScriptedSched, hi]
      | succ j' =>
        have hj' : j' < rest.length := by simpa using Nat.lt_of_succ_lt_succ hj
        simp only [demoScriptedSched, if_neg hi, List.getD_cons_succ]
        rw [ih (t + 6) (i + 1) j' (Nat.succ_ne_zero i) hj']
        ring

theorem scenSched_time_pos (turns : List (String × String)) :
    ∀ (t i j : Nat), i ≠ 0 → j < turns.length →
      ((scenScriptedSched turns t i).getD j (0, "")).1 = t + 6 * (j + 1) := by
  induction turns with
  | nil => intro t i j _ hj; simp at hj
  | cons a rest ih =>
    intro t i j hi hj
    cases a with
    | mk label text =>
      cases j with
      | zero => simp [scenScriptedSched, hi]
      | succ j' =>
        have hj' : j' < rest.length := by simpa using Nat.lt_of_succ_lt_succ hj
        simp only [scenScriptedSched, if_neg hi, List.getD_cons_succ]
        rw [ih (t + 6) (i + 1) j' (Nat.succ_ne_zero i) hj']
        ring

theorem demoSched_time (turns : List (String × String)) :
    ∀ (j : Nat), j < turns.length →
      ((demoScriptedSched turns 0 0).getD j (0, "")).1 = 4 + 6 * j := by
  intro j hj
  cases turns with
  | nil => simp at hj
  | cons a rest =>
    cases a with
    | mk label text =>
      cases j with
      | zero => simp [demoScriptedSched]
      | succ j' =>
        have hj' : j' < rest.length := by simpa using Nat.lt_of_succ_lt_succ hj
        simp only [demoScriptedSched, List.getD_cons_succ, eq_self_iff_true,
          if_true, ite_true, Nat.zero_add]
        rw [demoSched_time_pos rest 4 1 j' one_ne_zero hj']

theorem scenSched_time (turns : List (String × String)) :
    ∀ (j : Nat), j < turns.length →
      ((scenScriptedSched turns 0 0).getD j (0, "")).1 = 3 + 6 * j := by
  intro j hj
  cases turns with
  | nil => simp at hj
  | cons a rest =>
    cases a with
    | mk label text =>
      cases j with
      | zero => simp [scenScriptedSched]
      | succ j' =>
        have hj' : j' < rest.length := by simpa using Nat.lt_of_succ_lt_succ hj
        simp only [scenScriptedSched, List.getD_cons_succ, eq_self_iff_true,
          if_true, ite_true, Nat.zero_add]
        rw [scenSched_time_pos rest 3 1 j' one_ne_zero hj']

/-- C4.  For every scripted scenario whose session stays open, each runner
transmits exactly one user-turn message per configured turn (same count,
same texts, configured order), and no turn is sent before its settling delay
has elapsed: the demo runner sends turn `j` at instant `4 + 6j` (4 units
before the first turn, 6 before each subsequent one) and the harness at
`3 + 6j` (3 units before the first turn, 6 before each subsequent one), so
consecutive sends are exactly one inter-turn delay apart. -/
theorem C4_scripted_turn_schedule :
    ∀ (turns : List (String × String)) (j : Nat),
      (demoScriptedSched turns 0 0).map Prod.snd = turns.map Prod.snd ∧
      (demoScriptedSched turns 0 0).length = turns.length ∧
      (scenScriptedSched turns 0 0).map Prod.snd = turns.map Prod.snd ∧
      (scenScriptedSched turns 0 0).length = turns.length ∧
      (j < turns.length →
        ((demoScriptedSched turns 0 0).getD j (0, "")).1 = 4 + 6 * j ∧
        ((scenScriptedSched turns 0 0).getD j (0, "")).1 = 3 + 6 * j) ∧
      (j + 1 < turns.length →
        ((demoScriptedSched turns 0 0).getD (j + 1) (0, "")).1
          = ((demoScriptedSched turns 0 0).getD j (0, "")).1 + 6 ∧
        ((scenScriptedSched turns 0 0).getD (j + 1) (0, "")).1
          = ((scenScriptedSched turns 0 0).getD j (0, "")).1 + 6) := by
  intro turns j
  refine ⟨demoSched_texts turns 0 0, ?_, scenSched_texts turns 0 0, ?_, ?_, ?_⟩
  · have h := congrArg List.length (demoSched_texts turns 0 0)
    simpa using h
  · have h := congrArg List.length (scenSched_texts turns 0 0)
    simpa using h
  · intro hj
    exact ⟨demoSched_time turns j hj, scenSched_time turns j hj⟩
  · intro hj1
    have hj : j < turns.length := Nat.lt_of_succ_lt hj1
    rw [demoSched_time turns (j + 1) hj1, demoSched_time turns j hj,
      scenSched_time turns (j + 1) hj1, scenSched_time turns j hj]
    omega

/-- Closed instance of C4 at the demo script's scenario 1 turn list: four
turns are scheduled, the first at instant 4 (demo) and 3 (harness), the
second 6 units after the first. -/
theorem C4_witness :
    (((demoScriptedSched demoSc1Turns 0 0).getD 0 (0, "")).1 = 4 + 6 * 0 ∧
      ((scenScriptedSched demoSc1Turns 0 0).getD 0 (0, "")).1 = 3 + 6 * 0) ∧
    ((demoScriptedSched demoSc1Turns 0 0).getD 1 (0, "")).1
      = ((demoScriptedSched demoSc1Turns 0 0).getD 0 (0, "")).1 + 6 ∧
    ((scenScriptedSched demoSc1Turns 0 0).getD 1 (0, "")).1
      = ((scenScriptedSched demoSc1Turns 0 0).getD 0 (0, "")).1 + 6 := by
  have h := C4_scripted_turn_schedule demoSc1Turns 0
  exact ⟨h.2.2.2.2.1 (by decide), h.2.2.2.2.2 (by decide)⟩

/-
Helper lemmas for the interleaved demo-session model.
-/

theorem drop_succ_of_drop_cons {α : Type} {tc : List α} {n : Nat} {x : α}
    {xs : List α} (h : tc.drop n = x :: xs) : tc.drop (n + 1) = xs := by
  have h2 : List.drop 1 (List.drop n tc) = List.drop (n + 1) tc :=
    List.drop_drop 1 n tc
  rw [h] at h2
  simpa using h2.symm

theorem runDemo_cons (tc : List (String × String)) {sys sys' : DemoSys}
    {a : DemoAct} {labs : List Lab} (h : stepDemo tc sys a = some (sys', labs))
    (acts : List DemoAct) :
    runDemo tc sys (a :: acts)
      = (runDemo tc sys' acts).map (fun r => (r.1, labs ++ r.2)) := by
  simp [runDemo, h]

theorem stepDemo_recv_settings (tc : List (String × String)) (sys : DemoSys)
    (h : sys.wsClosed = false) :
    stepDemo tc sys (DemoAct.recv settingsFrame) =
      some ({ sys with
              st := { sys.st with settings_applied := true }
              kaStarted := true
              turnsStarted := true }, []) := by
  simp [stepDemo, h, demoOnMessage, settingsFrame, objGet, labsOfRecv]

theorem stepDemo_recv_err (tc : List (String × String)) (sys : DemoSys)
    (code desc : String) (h : sys.wsClosed = false) :
    ∃ st', stepDemo tc sys (DemoAct.recv (TextParse.obj (errFields code desc)))
      = some ({ sys with st := st' }, [Lab.gotError code]) := by
  have hfr : MsgIn.text (TextParse.obj (errFields code desc))
      = errFrame code desc := rfl
  by_cases hc : code = "CLIENT_MESSAGE_TIMEOUT"
  · refine ⟨sys.st, ?_⟩
    simp only [stepDemo, h]
    rw [hfr, demoOnMessage_err (some tc) sys.st code desc]
    simp [hc, labsOfRecv, errFields, objGet]
    rfl
  · refine ⟨{ sys.st with
        errors := sys.st.errors ++ ["[" ++ code ++ "] " ++ desc] }, ?_⟩
    simp only [stepDemo, h]
    rw [hfr, demoOnMessage_err (some tc) sys.st code desc]
    simp [hc, labsOfRecv, errFields, objGet]
    rfl

theorem runDemo_turnSteps (tc : List (String × String)) :
    ∀ (rest : List (String × String)) (sys : DemoSys),
      sys.turnsStarted = true → sys.senderDead = false → sys.wsClosed = false →
      tc.drop sys.nextTurn = rest →
      ∃ sysF, runDemo tc sys (List.replicate rest.length DemoAct.turnStep)
        = some (sysF, rest.map (fun p => Lab.sentUser p.2)) := by
  intro rest
  induction rest with
  | nil => intro sys _ _ _ _; exact ⟨sys, rfl⟩
  | cons a rest ih =>
    intro sys h1 h2 h3 h4
    cases a with
    | mk label text =>
      have hstep : stepDemo tc sys DemoAct.turnStep =
          some ({ sys with
                  st := { sys.st with conversation :=
                    sys.st.conversation ++ [⟨"user", some label, text⟩] }
                  nextTurn := sys.nextTurn + 1 }, [Lab.sentUser text]) := by
        simp [stepDemo, h1, h2, h3, h4]
      obtain ⟨sysF, hrun⟩ := ih
        { sys with
          st := { sys.st with conversation :=
            sys.st.conversation ++ [⟨"user", some label, text⟩] }
          nextTurn := sys.nextTurn + 1 }
        h1 h2 h3 (drop_succ_of_drop_cons h4)
      refine ⟨sysF, ?_⟩
      rw [List.length_cons, List.replicate_succ, runDemo_cons tc hstep, hrun]
      simp

/-- C1, amended.  Receiving an error event — the fatal codes included — does
not disable the demo runner's scripted sender: nothing in the error branch
sets the completion or stop flag or otherwise affects the sender, so after
the handshake and an error event with any code, the sender still transmits
every configured turn, in order. -/
theorem C1_turns_continue_after_error :
    ∀ (tc : List (String × String)) (code desc : String),
      ∃ sysF,
        runDemo tc demoSysInit
          (DemoAct.recv settingsFrame
            :: DemoAct.recv (TextParse.obj (errFields code desc))
            :: List.replicate tc.length DemoAct.turnStep)
          = some (sysF, Lab.gotError code :: tc.map (fun p => Lab.sentUser p.2)) := by
  intro tc code desc
  have h1 := stepDemo_recv_settings tc demoSysInit rfl
  obtain ⟨st2, h2⟩ := stepDemo_recv_err tc
    { demoSysInit with
      st := { demoSysInit.st with settings_applied := true }
      kaStarted := true
      turnsStarted := true } code desc rfl
  obtain ⟨sysF, h3⟩ := runDemo_turnSteps tc tc
    { demoSysInit with
      st := st2
      kaStarted := true
      turnsStarted := true }
    rfl rfl rfl rfl
  refine ⟨sysF, ?_⟩
  rw [runDemo_cons tc h1, runDemo_cons tc h2, h3]
  simp

/-- C1, counterexample to the claim as stated: a valid interleaving of the
demo runner in which the handshake completes, the first scripted turn is
sent, a fatal `UNPARSABLE_CLIENT_MESSAGE` error is received, and the sender
— which never checks any flag — then transmits the next user turn.  The
observed label sequence violates the property that no user-turn message is
transmitted after a fatal error. -/
theorem C1_counterexample :
    (runDemo demoSc1Turns demoSysInit
        [DemoAct.recv settingsFrame, DemoAct.turnStep,
         DemoAct.recv (TextParse.obj
           (errFields "UNPARSABLE_CLIENT_MESSAGE" "unparsable message")),
         DemoAct.turnStep]).map (fun r => afterFatalNoSend r.2)
      = some false := by decide

/-
Helper lemmas for the keepalive-loop model.
-/

theorem sendBudget_le_one (s : KState) : sendBudget s ≤ 1 := by
  unfold sendBudget; split <;> omega

theorem countSent_append (l₁ l₂ : List KLab) :
    countSent (l₁ ++ l₂) = countSent l₁ + countSent l₂ := by
  simp [countSent, sentTimes, List.filterMap_append]

theorem kaRun_cons {s : KState} {a : KAct} {acts : List KAct} {s' : KState}
    {labs : List KLab} (h : kaRun s (a :: acts) = some (s', labs)) :
    ∃ s₁ l₁ l₂, kaStep s a = some (s₁, l₁) ∧ kaRun s₁ acts = some (s', l₂) ∧
      labs = l₁ ++ l₂ := by
  simp only [kaRun] at h
  cases hstep : kaStep s a with
  | none => rw [hstep] at h; exact absurd h (by simp)
  | some pr =>
    obtain ⟨s₁, l₁⟩ := pr
    rw [hstep] at h
    obtain ⟨⟨s₂, l₂⟩, h₂, heq⟩ := Option.map_eq_some'.mp h
    injection heq with he1 he2
    subst he1
    exact ⟨s₁, l₁, l₂, rfl, h₂, he2.symm⟩

theorem ka_step_stop {s s₁ : KState} {labs : List KLab} {a : KAct}
    (hstop : s.stop = true) (hstep : kaStep s a = some (s₁, labs)) :
    s₁.stop = true ∧ countSent labs + sendBudget s₁ ≤ sendBudget s := by
  cases a with
  | setStop =>
    simp only [kaStep] at hstep
    injection hstep with he
    injection he with he1 he2
    subst he1; subst he2
    simp [countSent, sentTimes, sendBudget]
  | doLoopCheck =>
    simp only [kaStep] at hstep
    split at hstep
    · injection hstep with he
      injection he with he1 he2
      subst he1; subst he2
      simp [countSent, sentTimes, sendBudget, hstop]
    · exact absurd hstep (by simp)
  | waitFull =>
    simp only [kaStep] at hstep
    split at hstep
    · next hcond => rw [hstop] at hcond; exact absurd hcond.2 (by simp)
    · exact absurd hstep (by simp)
  | waitEarly d =>
    simp only [kaStep] at hstep
    split at hstep
    · injection hstep with he
      injection he with he1 he2
      subst he1; subst he2
      simp [countSent, sentTimes, sendBudget, hstop]
    · exact absurd hstep (by simp)
  | doPostWait =>
    simp only [kaStep] at hstep
    split at hstep
    · injection hstep with he
      injection he with he1 he2
      subst he1; subst he2
      refine ⟨hstop, ?_⟩
      simp [countSent, sentTimes, sendBudget, hstop]
    · exact absurd hstep (by simp)
  | sendOk =>
    simp only [kaStep] at hstep
    split at hstep
    · next hcond =>
      injection hstep with he
      injection he with he1 he2
      subst he1; subst he2
      exact ⟨hstop, by simp [countSent, sentTimes, sendBudget, hcond]⟩
    · exact absurd hstep (by simp)
  | sendFail =>
    simp only [kaStep] at hstep
    split at hstep
    · next hcond =>
      injection hstep with he
      injection he with he1 he2
      subst he1; subst he2
      exact ⟨hstop, by simp [countSent, sentTimes, sendBudget, hcond]⟩
    · exact absurd hstep (by simp)

theorem ka_count_budget :
    ∀ (acts : List KAct) (s s' : KState) (labs : List KLab),
      kaRun s acts = some (s', labs) → s.stop = true →
      countSent labs ≤ sendBudget s := by
  intro acts
  induction acts with
  | nil =>
    intro s s' labs h _
    simp only [kaRun] at h
    injection h with he
    injection he with he1 he2
    subst he2
    simp [countSent, sentTimes]
  | cons a rest ih =>
    intro s s' labs h hstop
    obtain ⟨s₁, l₁, l₂, hstep, hrun, rfl⟩ := kaRun_cons h
    obtain ⟨hstop₁, hbud⟩ := ka_step_stop hstop hstep
    have h₂ := ih s₁ s' l₂ hrun hstop₁
    rw [countSent_append]
    omega

theorem ka_step_nostop {s s₁ : KState} {labs : List KLab} {a : KAct}
    (hstop : s.stop = false) (ha : a ≠ KAct.setStop)
    (hstep : kaStep s a = some (s₁, labs)) :
    s₁.stop = false ∧ (labs = [] ∨ ∃ t, labs = [KLab.sent t]) := by
  cases a with
  | setStop => exact absurd rfl ha
  | doLoopCheck =>
    simp only [kaStep] at hstep
    split at hstep
    · injection hstep with he
      injection he with he1 he2
      subst he1; subst he2
      exact ⟨hstop, Or.inl rfl⟩
    · exact absurd hstep (by simp)
  | waitFull =>
    simp only [kaStep] at hstep
    split at hstep
    · injection hstep with he
      injection he with he1 he2
      subst he1; subst he2
      exact ⟨hstop, Or.inl rfl⟩
    · exact absurd hstep (by simp)
  | waitEarly d =>
    simp only [kaStep] at hstep
    split at hstep
    · injection hstep with he
      injection he with he1 he2
      subst he1; subst he2
      exact ⟨hstop, Or.inl rfl⟩
    · exact absurd hstep (by simp)
  | doPostWait =>
    simp only [kaStep] at hstep
    split at hstep
    · injection hstep with he
      injection he with he1 he2
      subst he1; subst he2
      exact ⟨hstop, Or.inl rfl⟩
    · exact absurd hstep (by simp)
  | sendOk =>
    simp only [kaStep] at hstep
    split at hstep
    · injection hstep with he
      injection he with he1 he2
      subst he1; subst he2
      exact ⟨hstop, Or.inr ⟨s.clock, rfl⟩⟩
    · exact absurd hstep (by simp)
  | sendFail =>
    simp only [kaStep] at hstep
    split at hstep
    · injection hstep with he
      injection he with he1 he2
      subst he1; subst he2
      exact ⟨hstop, Or.inl rfl⟩
    · exact absurd hstep (by simp)

theorem ka_afterstop :
    ∀ (acts : List KAct) (s s' : KState) (labs : List KLab),
      kaRun s acts = some (s', labs) → s.stop = false →
      countSentAfterStopped labs ≤ 1 := by
  intro acts
  induction acts with
  | nil =>
    intro s s' labs h _
    simp only [kaRun] at h
    injection h with he
    injection he with he1 he2
    subst he2
    simp [countSentAfterStopped]
  | cons a rest ih =>
    intro s s' labs h hstop
    obtain ⟨s₁, l₁, l₂, hstep, hrun, rfl⟩ := kaRun_cons h
    by_cases ha : a = KAct.setStop
    · subst ha
      simp only [kaStep] at hstep
      injection hstep with he
      injection he with he1 he2
      subst he1; subst he2
      have hb := ka_count_budget rest _ s' l₂ hrun rfl
      have hb1 := sendBudget_le_one { s with stop := true }
      have hcc : countSentAfterStopped ([KLab.stopped] ++ l₂) = countSent l₂ := rfl
      rw [hcc]
      omega
    · obtain ⟨hstop₁, hl⟩ := ka_step_nostop hstop ha hstep
      have h₂ := ih s₁ s' l₂ hrun hstop₁
      rcases hl with rfl | ⟨t, rfl⟩
      · simpa using h₂
      · simpa [countSentAfterStopped] using h₂

theorem ka_gaps :
    ∀ (acts : List KAct) (s : KState) (last? : Option Nat), kaInv s last? →
      ∀ (s' : KState) (labs : List KLab), kaRun s acts = some (s', labs) →
      gapsFrom last? (sentTimes labs) = true := by
  intro acts
  induction acts with
  | nil =>
    intro s last? _ s' labs h
    simp only [kaRun] at h
    injection h with he
    injection he with he1 he2
    subst he2
    cases last? <;> simp [sentTimes, gapsFrom]
  | cons a rest ih =>
    intro s last? hinv s' labs h
    obtain ⟨s₁, l₁, l₂, hstep, hrun, rfl⟩ := kaRun_cons h
    cases a with
    | setStop =>
      simp only [kaStep] at hstep
      injection hstep with he
      injection he with he1 he2
      subst he1; subst he2
      refine ih { s with stop := true } last? ⟨hinv.1, hinv.2.1, ?_⟩ s' l₂ hrun
      intro _ hs
      exact absurd hs (by simp)
    | doLoopCheck =>
      simp only [kaStep] at hstep
      split at hstep
      · next hcond =>
        injection hstep with he
        injection he with he1 he2
        subst he1; subst he2
        refine ih { s with pc := if s.stop then KPc.exited else KPc.waiting }
          last? ⟨hinv.1, ?_, ?_⟩ s' l₂ hrun
        · intro hpc
          by_cases hb : s.stop = true <;> simp [hb] at hpc
        · intro hpc
          by_cases hb : s.stop = true <;> simp [hb] at hpc
      · exact absurd hstep (by simp)
    | waitFull =>
      simp only [kaStep] at hstep
      split at hstep
      · next hcond =>
        injection hstep with he
        injection he with he1 he2
        subst he1; subst he2
        refine ih { s with pc := KPc.postWait, clock := s.clock + 7 }
          last? ⟨?_, ?_, ?_⟩ s' l₂ hrun
        · intro t ht
          have := hinv.1 t ht
          show t ≤ s.clock + 7
          omega
        · intro hpc
          exact absurd hpc (by simp)
        · intro _ _ t ht
          have := hinv.1 t ht
          show t + 7 ≤ s.clock + 7
          omega
      · exact absurd hstep (by simp)
    | waitEarly d =>
      simp only [kaStep] at hstep
      split at hstep
      · next hcond =>
        injection hstep with he
        injection he with he1 he2
        subst he1; subst he2
        refine ih { s with pc := KPc.postWait, clock := s.clock + d }
          last? ⟨?_, ?_, ?_⟩ s' l₂ hrun
        · intro t ht
          have := hinv.1 t ht
          show t ≤ s.clock + d
          omega
        · intro hpc
          exact absurd hpc (by simp)
        · intro _ hs
          have hs' : s.stop = false := hs
          simp [hcond.2.1] at hs'
      · exact absurd hstep (by simp)
    | doPostWait =>
      simp only [kaStep] at hstep
      split at hstep
      · next hcond =>
        injection hstep with he
        injection he with he1 he2
        subst he1; subst he2
        refine ih { s with pc := if s.stop then KPc.exited else KPc.sending }
          last? ⟨hinv.1, ?_, ?_⟩ s' l₂ hrun
        · intro hpc t ht
          by_cases hb : s.stop = true
          · simp [hb] at hpc
          · have hb' : s.stop = false := by simpa using hb
            exact hinv.2.2 hcond hb' t ht
        · intro hpc
          by_cases hb : s.stop = true <;> simp [hb] at hpc
      · exact absurd hstep (by simp)
    | sendOk =>
      simp only [kaStep] at hstep
      split at hstep
      · next hcond =>
        injection hstep with he
        injection he with he1 he2
        subst he1; subst he2
        have hrec := ih { s with pc := KPc.loopCheck } (some s.clock)
          ⟨fun t ht => by injection ht with ht'; subst ht'; exact le_refl _,
           fun hpc => absurd hpc (by simp),
           fun hpc => absurd hpc (by simp)⟩ s' l₂ hrun
        have hsent : sentTimes ([KLab.sent s.clock] ++ l₂)
            = s.clock :: sentTimes l₂ := rfl
        rw [hsent]
        cases last? with
        | none => simpa [gapsFrom] using hrec
        | some p =>
          have hgap : p + 7 ≤ s.clock := hinv.2.1 hcond p rfl
          simp [gapsFrom, hgap, hrec]
      · exact absurd hstep (by simp)
    | sendFail =>
      simp only [kaStep] at hstep
      split at hstep
      · next hcond =>
        injection hstep with he
        injection he with he1 he2
        subst he1; subst he2
        refine ih { s with pc := KPc.exited } last? ⟨hinv.1, ?_, ?_⟩ s' l₂ hrun
        · intro hpc
          exact absurd hpc (by simp)
        · intro hpc
          exact absurd hpc (by simp)
      · exact absurd hstep (by simp)

/-- C7, counterexample to the claim as stated: a valid schedule of the
keepalive loop in which the wait elapses, the loop observes the stop flag
unset, another thread then sets the stop flag, and the already-committed
`ws.send` still goes out — one keepalive message is sent after the stop flag
has been set (a check-then-act race in `_keepalive_loop`). -/
theorem C7_counterexample :
    (kaRun kaInit [KAct.doLoopCheck, KAct.waitFull, KAct.doPostWait,
        KAct.setStop, KAct.sendOk]).map
      (fun r => (countSentAfterStopped r.2, r.2))
      = some (1, [KLab.stopped, KLab.sent 7]) := by decide

/-- C7, amended.  In every schedule of the keepalive loop, consecutive
liveness messages are at least one configured interval (7 time-units) apart
— at most one per interval while the session is active — and once the stop
flag has been set, at most one further liveness message can ever be sent
(only when the flag was set between the loop's flag check and the
transmission itself; the loop never begins a new iteration once it has
observed the flag). -/
theorem C7_keepalive_spacing_and_stop :
    ∀ (acts : List KAct) (s' : KState) (labs : List KLab),
      kaRun kaInit acts = some (s', labs) →
      gapsOK (sentTimes labs) = true ∧ countSentAfterStopped labs ≤ 1 := by
  intro acts s' labs h
  constructor
  · refine ka_gaps acts kaInit none ?_ s' labs h
    refine ⟨?_, ?_, ?_⟩
    · intro t ht
      cases ht
    · intro hpc
      exact absurd hpc (by decide)
    · intro hpc
      exact absurd hpc (by decide)
  · exact ka_afterstop acts kaInit s' labs h rfl

/-- Closed instance of C7's amended theorem: a schedule with two full
iterations sends at instants 7 and 14 — 7 units apart — and no message after
a stop. -/
theorem C7_witness :
    gapsOK (sentTimes [KLab.sent 7, KLab.sent 14]) = true ∧
    countSentAfterStopped [KLab.sent 7, KLab.sent 14] ≤ 1 := by
  refine C7_keepalive_spacing_and_stop
    [KAct.doLoopCheck, KAct.waitFull, KAct.doPostWait, KAct.sendOk,
     KAct.doLoopCheck, KAct.waitFull, KAct.doPostWait, KAct.sendOk]
    { pc := KPc.loopCheck, stop := false, clock := 14 }
    [KLab.sent 7, KLab.sent 14] (by decide)
